import Mathlib

/-!
Verification development for the steenbok safe URL fetcher
(src/allowlist.py and src/fetch.py).

The Python sources are shallowly embedded as executable Lean functions.
Python strings are modeled as Lean strings; the string helpers below model
the ASCII fragment of the corresponding Python str methods, which is the
fragment exercised by schemes, hostnames and IP literals.  External
collaborators (DNS resolution via socket.getaddrinfo, the HTTP transport,
urllib.parse.urljoin, PyMuPDF, trafilatura, the utf-8 decoder and the
regex-based tag-stripping fallback) are modeled as oracle fields of an
environment record, matching the spec treatment of these as black boxes.
Byte strings are modeled as lists of naturals.
-/

namespace Steenbok

/-! ## Python string primitives -/

/-- Whitespace characters recognized by Python str.strip (ASCII fragment). -/
def isPySpace (c : Char) : Bool :=
  c = ' ' || c = '\t' || c = '\n' || c = '\r' || c.val = 11 || c.val = 12

/-- Model of Python str.lower (ASCII fragment). -/
def pyLower (s : String) : String := String.mk (s.toList.map Char.toLower)

/-- Strip leading and trailing whitespace from a character list. -/
def stripList (l : List Char) : List Char :=
  ((l.dropWhile isPySpace).reverse.dropWhile isPySpace).reverse

/-- Model of Python str.strip with no argument. -/
def pyStrip (s : String) : String := String.mk (stripList s.toList)

/-- Model of Python str.split(sep) for a one-character separator:
splits at every occurrence, keeping empty pieces, and yields one piece
for a string with no separator. -/
def splitOnChar (sep : Char) : List Char → List (List Char)
  | [] => [[]]
  | c :: cs =>
    if c = sep then [] :: splitOnChar sep cs
    else
      match splitOnChar sep cs with
      | [] => [[c]]
      | h :: t => (c :: h) :: t

/-- Split at the first occurrence of a separator, if any
(model of Python str.partition restricted to the found case). -/
def splitFirst (sep : Char) : List Char → Option (List Char × List Char)
  | [] => none
  | c :: cs =>
    if c = sep then some ([], cs)
    else
      match splitFirst sep cs with
      | none => none
      | some (a, b) => some (c :: a, b)

/-- Value of a hexadecimal digit. -/
def hexVal (c : Char) : Option Nat :=
  if c.isDigit then some (c.toNat - 48)
  else if 'a' ≤ c ∧ c ≤ 'f' then some (c.toNat - 87)
  else if 'A' ≤ c ∧ c ≤ 'F' then some (c.toNat - 71)
  else none

/-- Decimal value of a digit list (callers check digits first). -/
def decValList (l : List Char) : Nat :=
  l.foldl (fun a c => a * 10 + (c.toNat - 48)) 0

/-! ## Model of the Python ipaddress module (CPython 3.11)

Only the entry point used by fetch.py is embedded: ipaddress.ip_address,
which tries IPv4Address then IPv6Address, together with the address-space
classification properties the fetcher reads. -/

/-- Model of ipaddress._parse_octet: a nonempty string of at most three
decimal digits, value at most 255, with no leading zero. -/
def parseOctet (l : List Char) : Option Nat :=
  if l = [] then none
  else if ¬ l.all Char.isDigit then none
  else if l.length > 3 then none
  else
    let n := decValList l
    if n > 255 then none
    else if l.head? = some '0' ∧ l.length > 1 then none
    else some n

/-- Model of the IPv4 string-to-integer conversion: four octets joined
by dots. -/
def parseIPv4list (l : List Char) : Option Nat :=
  match (splitOnChar '.' l).map parseOctet with
  | [some a, some b, some c, some d] =>
      some (((a * 256 + b) * 256 + c) * 256 + d)
  | _ => none

def parseIPv4 (s : String) : Option Nat := parseIPv4list s.toList

/-- Token of the IPv6 parser: either a raw hextet string or an
already-computed value coming from an embedded IPv4 suffix. -/
inductive Hextok
  | s (chars : List Char)
  | n (val : Nat)
deriving DecidableEq

def hextokEmpty : Hextok → Bool
  | .s [] => true
  | _ => false

/-- Model of ipaddress._parse_hextet: one to four hex digits. -/
def parseHextet (l : List Char) : Option Nat :=
  if l = [] then none
  else if l.length > 4 then none
  else
    l.foldl
      (fun acc c =>
        match acc, hexVal c with
        | some a, some v => some (a * 16 + v)
        | _, _ => none)
      (some 0)

def hextokVal : Hextok → Option Nat
  | .s l => parseHextet l
  | .n v => some v

/-- Accumulate hextets into an integer, sixteen bits per hextet. -/
def foldHextets (toks : List Hextok) (init : Nat) : Option Nat :=
  toks.foldl
    (fun acc t =>
      match acc, hextokVal t with
      | some a, some v => some (a * 65536 + v)
      | _, _ => none)
    (some init)

/-- Replace a trailing dotted-quad part by its two derived hextets
(model of the IPv4-in-IPv6 handling of _ip_int_from_string). -/
def expandV4 (parts : List Hextok) : Option (List Hextok) :=
  match parts.getLast? with
  | some (.s last) =>
    if last.contains '.' then
      match parseIPv4list last with
      | none => none
      | some v => some (parts.dropLast ++ [.n (v / 65536), .n (v % 65536)])
    else some parts
  | _ => some parts

/-- Last n elements of a list (model of a negative-index Python slice). -/
def takeLastN (n : Nat) (l : List α) : List α := l.drop (l.length - n)

/-- Model of IPv6Address._ip_int_from_string (CPython 3.11): colon-split,
optional embedded IPv4 suffix, at most one double-colon gap, eight hextets
in total. -/
def parseIPv6core (l : List Char) : Option Nat :=
  if l = [] then none
  else
    let parts0 := (splitOnChar ':' l).map Hextok.s
    if parts0.length < 3 then none
    else
      match expandV4 parts0 with
      | none => none
      | some parts =>
        if parts.length > 9 then none
        else
          let middle := (parts.drop 1).dropLast
          if 2 ≤ middle.countP (fun t => hextokEmpty t) then none
          else
            match middle.findIdx? (fun t => hextokEmpty t) with
            | some i =>
              let si := i + 1
              let firstEmpty := hextokEmpty (parts.headD (.s []))
              let lastEmpty := hextokEmpty (parts.getLastD (.s []))
              let partsHi := if firstEmpty then si - 1 else si
              if firstEmpty ∧ partsHi ≠ 0 then none
              else
                let partsLo0 := parts.length - si - 1
                let partsLo := if lastEmpty then partsLo0 - 1 else partsLo0
                if lastEmpty ∧ partsLo ≠ 0 then none
                else if 8 ≤ partsHi + partsLo then none
                else
                  let skipped := 8 - (partsHi + partsLo)
                  match foldHextets (parts.take partsHi) 0 with
                  | none => none
                  | some hi =>
                    foldHextets (takeLastN partsLo parts) (hi * 65536 ^ skipped)
            | none =>
              if parts.length ≠ 8 then none
              else if hextokEmpty (parts.headD (.s [])) then none
              else if hextokEmpty (parts.getLastD (.s [])) then none
              else foldHextets parts 0

/-- Model of the IPv6 scope-zone split of IPv6Address.__init__: an optional
percent-separated zone id, which must be nonempty and contain no further
percent sign. -/
def parseIPv6 (s : String) : Option Nat :=
  match splitFirst '%' s.toList with
  | none => parseIPv6core s.toList
  | some (addr, zone) =>
    if zone = [] || zone.contains '%' then none
    else parseIPv6core addr

/-- Parsed IP address: IPv4 or IPv6 with its integer value. -/
inductive IPAddr
  | v4 (val : Nat)
  | v6 (val : Nat)
deriving DecidableEq

/-- Model of ipaddress.ip_address: try IPv4, then IPv6. -/
def ip_address (s : String) : Option IPAddr :=
  match parseIPv4 s with
  | some n => some (.v4 n)
  | none =>
    match parseIPv6 s with
    | some n => some (.v6 n)
    | none => none

def mkV4 (a b c d : Nat) : Nat := ((a * 256 + b) * 256 + c) * 256 + d

def mkV6 (a b c d e f g h : Nat) : Nat :=
  ((((((a * 65536 + b) * 65536 + c) * 65536 + d) * 65536 + e) * 65536 + f)
      * 65536 + g) * 65536 + h

/-- Network membership by prefix comparison: an address of the given bit
width is in net/pre iff both agree on the first pre bits. -/
def inNet (width addr net pre : Nat) : Bool :=
  addr / 2 ^ (width - pre) == net / 2 ^ (width - pre)

/-- IPv4 private networks of CPython 3.11 ipaddress. -/
def v4PrivateNets : List (Nat × Nat) := [
  (mkV4 0 0 0 0, 8), (mkV4 10 0 0 0, 8), (mkV4 127 0 0 0, 8),
  (mkV4 169 254 0 0, 16), (mkV4 172 16 0 0, 12), (mkV4 192 0 0 0, 29),
  (mkV4 192 0 0 170, 31), (mkV4 192 0 2 0, 24), (mkV4 192 168 0 0, 16),
  (mkV4 198 18 0 0, 15), (mkV4 198 51 100 0, 24), (mkV4 203 0 113 0, 24),
  (mkV4 240 0 0 0, 4), (mkV4 255 255 255 255, 32)]

/-- IPv6 private networks of CPython 3.11 ipaddress. -/
def v6PrivateNets : List (Nat × Nat) := [
  (mkV6 0 0 0 0 0 0 0 1, 128), (mkV6 0 0 0 0 0 0 0 0, 128),
  (mkV6 0 0 0 0 0 0xffff 0 0, 96), (mkV6 0x100 0 0 0 0 0 0 0, 64),
  (mkV6 0x2001 0 0 0 0 0 0 0, 23), (mkV6 0x2001 2 0 0 0 0 0 0, 48),
  (mkV6 0x2001 0xdb8 0 0 0 0 0 0, 32), (mkV6 0x2001 0x10 0 0 0 0 0 0, 28),
  (mkV6 0xfc00 0 0 0 0 0 0 0, 7), (mkV6 0xfe80 0 0 0 0 0 0 0, 10)]

/-- IPv6 reserved networks of CPython 3.11 ipaddress. -/
def v6ReservedNets : List (Nat × Nat) := [
  (mkV6 0 0 0 0 0 0 0 0, 8), (mkV6 0x100 0 0 0 0 0 0 0, 8),
  (mkV6 0x200 0 0 0 0 0 0 0, 7), (mkV6 0x400 0 0 0 0 0 0 0, 6),
  (mkV6 0x800 0 0 0 0 0 0 0, 5), (mkV6 0x1000 0 0 0 0 0 0 0, 4),
  (mkV6 0x4000 0 0 0 0 0 0 0, 3), (mkV6 0x6000 0 0 0 0 0 0 0, 3),
  (mkV6 0x8000 0 0 0 0 0 0 0, 3), (mkV6 0xa000 0 0 0 0 0 0 0, 3),
  (mkV6 0xc000 0 0 0 0 0 0 0, 3), (mkV6 0xe000 0 0 0 0 0 0 0, 4),
  (mkV6 0xf000 0 0 0 0 0 0 0, 5), (mkV6 0xf800 0 0 0 0 0 0 0, 6),
  (mkV6 0xfe00 0 0 0 0 0 0 0, 9)]

/-- Model of the is_private property. -/
def IPAddr.is_private : IPAddr → Bool
  | .v4 n => v4PrivateNets.any (fun net => inNet 32 n net.1 net.2)
  | .v6 n => v6PrivateNets.any (fun net => inNet 128 n net.1 net.2)

/-- Model of the is_loopback property. -/
def IPAddr.is_loopback : IPAddr → Bool
  | .v4 n => inNet 32 n (mkV4 127 0 0 0) 8
  | .v6 n => n == 1

/-- Model of the is_link_local property. -/
def IPAddr.is_link_local : IPAddr → Bool
  | .v4 n => inNet 32 n (mkV4 169 254 0 0) 16
  | .v6 n => inNet 128 n (mkV6 0xfe80 0 0 0 0 0 0 0) 10

/-- Model of the is_reserved property. -/
def IPAddr.is_reserved : IPAddr → Bool
  | .v4 n => inNet 32 n (mkV4 240 0 0 0) 4
  | .v6 n => v6ReservedNets.any (fun net => inNet 128 n net.1 net.2)

/-- Model of the is_unspecified property. -/
def IPAddr.is_unspecified : IPAddr → Bool
  | .v4 n => n == 0
  | .v6 n => n == 0

/-! ## fetch.py constants and the Host/IP Classifier -/

def MAX_RESPONSE_BYTES : Nat := 5 * 1024 * 1024

def MAX_PDF_BYTES : Nat := 2 * 1024 * 1024

def MAX_REDIRECTS : Nat := 3

def BLOCKED_SCHEMES : List String := ["file", "data", "javascript", "vbscript", "ftp"]

def BLOCKED_HOSTNAMES : List String := ["localhost", "localhost.localdomain"]

/-- Model of fetch._is_blocked_ip: strip, parse as a literal IP, and
report the disjunction of the five address-space properties; a non-IP
string is not blocked here. -/
def is_blocked_ip (ip_str : String) : Bool :=
  match ip_address (pyStrip ip_str) with
  | none => false
  | some a =>
    a.is_private || a.is_loopback || a.is_link_local || a.is_reserved
      || a.is_unspecified

/-- Remove one matching pair of square brackets, as _is_blocked_host does
for bracketed IPv6 hosts. -/
def unwrapBrackets (h : String) : String :=
  match h.toList with
  | '[' :: rest =>
    if rest.getLast? = some ']' then String.mk rest.dropLast else h
  | _ => h

/-- Normalization _is_blocked_host applies to a nonempty host: lowercase,
strip whitespace, unwrap brackets. -/
def hostToken (host : String) : String := unwrapBrackets (pyStrip (pyLower host))

/-- Model of fetch._is_blocked_host: an empty host is blocked; otherwise
the normalized token is blocked if it is a known local hostname or a
blocked literal IP. -/
def is_blocked_host (host : String) : Bool :=
  if host = "" then true
  else
    let h := hostToken host
    if BLOCKED_HOSTNAMES.contains h then true
    else is_blocked_ip h

/-! ## Model of the urllib.parse subset used by the fetcher (CPython 3.11)

Only scheme and netloc are consumed by the sources, so the parse result
carries just those.  The WHATWG sanitation, the scheme grammar, the
netloc delimiters, the bracket validation of 3.11 and the hostname
extraction of SplitResult._hostinfo are embedded. -/

/-- C0 control or space, the character class urlsplit strips from the left. -/
def isC0OrSpace (c : Char) : Bool := c.val ≤ 32

/-- Characters permitted in a scheme after the leading letter. -/
def schemeChar (c : Char) : Bool :=
  c.isAlpha || c.isDigit || c = '+' || c = '-' || c = '.'

structure SplitResult where
  scheme : String
  netloc : String
deriving DecidableEq

deriving instance DecidableEq for Except

/-- Part of a character list after its first occurrence of a separator
(empty when absent). -/
def afterFirst (sep : Char) (l : List Char) : List Char :=
  match splitFirst sep l with
  | none => []
  | some (_, rest) => rest

/-- Longest prefix not containing the separator. -/
def takeUntil (sep : Char) (l : List Char) : List Char :=
  l.takeWhile (fun c => ¬ c = sep)

/-- Part after the last at-sign, or the whole list when there is none
(model of netloc.rpartition of the at-sign). -/
def rpartAfterAt (l : List Char) : List Char :=
  match splitFirst '@' l.reverse with
  | none => l
  | some (tailRev, _) => tailRev.reverse

/-- Model of the scheme split of urlsplit: a colon at a positive index
preceded by a letter and scheme characters peels off a lowercased scheme. -/
def splitSchemeList (l : List Char) : String × List Char :=
  match l.findIdx? (fun c => c = ':') with
  | none => ("", l)
  | some i =>
    if 0 < i ∧ (l.headD ' ').isAlpha ∧ ((l.take i).drop 1).all schemeChar then
      (pyLower (String.mk (l.take i)), l.drop (i + 1))
    else ("", l)

/-- Model of _splitnetloc: the netloc runs to the first slash, question
mark or hash. -/
def splitNetlocList (l : List Char) : List Char :=
  l.takeWhile (fun c => ¬ (c = '/' ∨ c = '?' ∨ c = '#'))

/-- Model of _check_bracketed_host (CPython 3.11): the bracket content is
either an IPvFuture literal (a v, hex digits, a dot, a nonempty tail) or a
parseable IPv6 address; a bracketed IPv4 or garbage is invalid. -/
def checkBracketedHost (l : List Char) : Bool :=
  match l with
  | 'v' :: rest =>
    match splitFirst '.' rest with
    | none => false
    | some (hexpart, t) =>
      hexpart ≠ [] && hexpart.all (fun c => (hexVal c).isSome) && t ≠ []
  | _ =>
    match ip_address (String.mk l) with
    | some (.v6 _) => true
    | _ => false

/-- Model of urllib.parse.urlsplit restricted to scheme and netloc; the
error value stands for the ValueError CPython raises on mismatched
brackets or an invalid bracketed host. -/
def urlsplitE (url : String) : Except Unit SplitResult :=
  let u0 := url.toList.dropWhile isC0OrSpace
  let u := u0.filter (fun c => ¬ (c = '\t' ∨ c = '\r' ∨ c = '\n'))
  let sr := splitSchemeList u
  let scheme := sr.1
  let rest := sr.2
  if rest.take 2 = ['/', '/'] then
    let netloc := splitNetlocList (rest.drop 2)
    if (netloc.contains '[' && !(netloc.contains ']'))
        || (netloc.contains ']' && !(netloc.contains '[')) then .error ()
    else if netloc.contains '[' && netloc.contains ']' then
      if checkBracketedHost (takeUntil ']' (afterFirst '[' netloc)) then
        .ok ⟨scheme, String.mk netloc⟩
      else .error ()
    else .ok ⟨scheme, String.mk netloc⟩
  else .ok ⟨scheme, ""⟩

/-- Model of the hostname property of SplitResult: strip userinfo, take
the bracket content or the part before the first colon, lowercase, and
report an empty hostname as absent. -/
def hostnameOf (netloc : String) : Option String :=
  let hostinfo := rpartAfterAt netloc.toList
  let hostname :=
    match splitFirst '[' hostinfo with
    | some (_, bracketed) => takeUntil ']' bracketed
    | none => takeUntil ':' hostinfo
  if hostname = [] then none
  else some (pyLower (String.mk hostname))

/-! ## Model of fnmatch (POSIX normcase, so case-sensitive matching) -/

/-- Compiled glob token: star, single-character wildcard, literal, or a
character class given by inclusive ranges. -/
inductive GlobTok
  | star
  | qmark
  | lit (c : Char)
  | cls (neg : Bool) (items : List (Char × Char))
deriving DecidableEq

/-- Class body items: a dash between two characters denotes a range, and
a dash at either end is a literal, as in the regex fnmatch compiles to. -/
def parseClassBody : List Char → List (Char × Char)
  | a :: '-' :: b :: rest => (a, b) :: parseClassBody rest
  | c :: rest => (c, c) :: parseClassBody rest
  | [] => []

/-- Locate the closing bracket of a class with the fnmatch scanning rule:
a closing bracket in first position is a literal member. -/
def scanClass (l : List Char) : Option (List Char × List Char) :=
  match l with
  | ']' :: rest =>
    match splitFirst ']' rest with
    | none => none
    | some (a, b) => some (']' :: a, b)
  | _ => splitFirst ']' l

/-- Compile a glob pattern into tokens, with an unmatched opening bracket
treated as a literal, as fnmatch.translate does.  The fuel argument only
bounds the recursion; every step strictly shortens the pattern, so fuel
one beyond the pattern length (as supplied by compileGlob) never runs out. -/
def compileGlobFuel : Nat → List Char → List GlobTok
  | 0, _ => []
  | _ + 1, [] => []
  | fuel + 1, '*' :: rest => .star :: compileGlobFuel fuel rest
  | fuel + 1, '?' :: rest => .qmark :: compileGlobFuel fuel rest
  | fuel + 1, '[' :: rest =>
    let pr :=
      match rest with
      | '!' :: r => (true, r)
      | r => (false, r)
    match scanClass pr.2 with
    | none => .lit '[' :: compileGlobFuel fuel rest
    | some (body, after) => .cls pr.1 (parseClassBody body) :: compileGlobFuel fuel after
  | fuel + 1, c :: rest => .lit c :: compileGlobFuel fuel rest

def compileGlob (l : List Char) : List GlobTok := compileGlobFuel (l.length + 1) l

/-- Membership in a class item (an inclusive code-point range). -/
def matchClassItem (c : Char) (it : Char × Char) : Bool := it.1 ≤ c && c ≤ it.2

/-- Glob matching against compiled tokens: a star matches any run of
characters, including the empty run.  Every recursive call shortens the
pattern or the subject, so fuel one beyond their combined length (as
supplied by globMatch) never runs out. -/
def globMatchFuel : Nat → List GlobTok → List Char → Bool
  | 0, _, _ => false
  | fuel + 1, ps, s =>
    match ps, s with
    | [], [] => true
    | [], _ :: _ => false
    | .star :: ps2, [] => globMatchFuel fuel ps2 []
    | .star :: ps2, c :: cs =>
      globMatchFuel fuel ps2 (c :: cs) || globMatchFuel fuel (.star :: ps2) cs
    | .qmark :: ps2, _ :: cs => globMatchFuel fuel ps2 cs
    | .qmark :: _, [] => false
    | .lit a :: ps2, c :: cs => a = c && globMatchFuel fuel ps2 cs
    | .lit _ :: _, [] => false
    | .cls neg items :: ps2, c :: cs =>
      (neg != items.any (matchClassItem c)) && globMatchFuel fuel ps2 cs
    | .cls _ _ :: _, [] => false

def globMatch (ps : List GlobTok) (s : List Char) : Bool :=
  globMatchFuel (ps.length + s.length + 1) ps s

/-- Model of fnmatch.fnmatch on POSIX: normcase is the identity there, so
this is full-string glob matching. -/
def fnmatch (name pat : String) : Bool :=
  globMatch (compileGlob pat.toList) name.toList

/-! ## allowlist.py -/

/-- Default allowlist of allowlist.py. -/
def DEFAULT_ALLOWED : List String := [
  "arxiv.org",
  "pubmed.ncbi.nlm.nih.gov",
  "*.ncbi.nlm.nih.gov",
  "jstor.org",
  "doi.org",
  "*.edu",
  "*.ac.uk",
  "wikipedia.org",
  "*.wikipedia.org",
  "en.wikipedia.org",
  "www.google.com",
  "scholar.google.com",
  "books.google.com",
  "patents.google.com"]

/-- First character of a string, if any. -/
def strHead? (s : String) : Option Char := s.toList.head?

/-- Model of allowlist._load_domains: defaults, then the override file
lines (stripped, skipping blanks and hash comments), then the
comma-separated environment value (stripped, skipping blanks).  The file
contents and environment value are parameters standing for the external
configuration surface. -/
def load_domains (fileLines : Option (List String)) (envVal : String) : List String :=
  let fromFile :=
    match fileLines with
    | none => []
    | some ls =>
      (ls.map pyStrip).filter (fun l => l ≠ "" && strHead? l ≠ some '#')
  let fromEnv :=
    if envVal = "" then []
    else
      ((splitOnChar ',' envVal.toList).map (fun l => pyStrip (String.mk l))).filter
        (fun d => d ≠ "")
  DEFAULT_ALLOWED ++ fromFile ++ fromEnv

/-- Model of allowlist._normalize_host: hostname (or raw netloc as a
fallback), lowercased, cut at the first colon; empty means no host. -/
def normalize_host (url : String) : Option String :=
  match urlsplitE url with
  | .error _ => none
  | .ok p =>
    let base :=
      match hostnameOf p.netloc with
      | some h => h
      | none => p.netloc
    let host := String.mk (takeUntil ':' (pyLower base).toList)
    if host = "" then none else some host

/-- Model of allowlist._host_matches_pattern. -/
def host_matches_pattern (host pattern : String) : Bool := fnmatch host pattern

/-- Model of allowlist.is_allowed over an explicit loaded pattern set:
a host must be extractable, the scheme exactly http or https, and the
host must glob-match some pattern. -/
def is_allowed (domains : List String) (url : String) : Bool :=
  match normalize_host url with
  | none => false
  | some host =>
    match urlsplitE url with
    | .error _ => false
    | .ok p =>
      let scheme := pyLower p.scheme
      if ¬ (scheme = "http" ∨ scheme = "https") then false
      else domains.any (fun pat => host_matches_pattern host pat)

/-- External configuration surface of the allowlist module. -/
structure AllowlistConfig where
  fileLines : Option (List String)
  envVal : String

/-- Module-level mutable state of allowlist.py: the lazily cached
pattern list. -/
structure AllowlistState where
  cached : Option (List String)
deriving DecidableEq

/-- Model of allowlist._get_domains: load and cache on first use. -/
def get_domains (cfg : AllowlistConfig) (s : AllowlistState) :
    List String × AllowlistState :=
  match s.cached with
  | some d => (d, s)
  | none =>
    let d := load_domains cfg.fileLines cfg.envVal
    (d, ⟨some d⟩)

/-- State-passing model of allowlist.is_allowed, making the cache access
of _get_domains explicit. -/
def is_allowed_st (cfg : AllowlistConfig) (s : AllowlistState) (url : String) :
    Bool × AllowlistState :=
  match normalize_host url with
  | none => (false, s)
  | some host =>
    match urlsplitE url with
    | .error _ => (false, s)
    | .ok p =>
      let scheme := pyLower p.scheme
      if ¬ (scheme = "http" ∨ scheme = "https") then (false, s)
      else
        let ds := get_domains cfg s
        (ds.1.any (fun pat => host_matches_pattern host pat), ds.2)

/-! ## fetch.py pipeline -/

/-- Reasons for the URLBlockedError raises of fetch.py, one constructor
per raise site, preserving the distinct diagnostics. -/
inductive BlockReason
  | invalidUrl
  | blockedScheme (scheme : String)
  | unsupportedScheme (scheme : String)
  | httpNotAllowed
  | blockedHost (host : String)
  | urlTooLong
  | hostNoHostname
  | resolvesToBlocked (ip : String)
  | hostUnreachable (host : String)
  | redirectNoHost
deriving DecidableEq

/-- Failure taxonomy of the fetch pipeline: the FetchError hierarchy of
fetch.py flattened into one closed variant type.  The constructor
uncaughtValueError marks a ValueError that would escape uncaught (a
urlparse failure inside _validate_redirect_target, which no except
clause catches). -/
inductive FetchErr
  | urlBlocked (reason : BlockReason)
  | allowlistRejected (url : String)
  | tooManyRedirects (url : String)
  | redirectWithoutLocation
  | httpStatus (code : Nat)
  | requestFailed
  | blockedContentType (ct : String)
  | unsupportedContentType (ct : String)
  | extractionFailed (msg : String)
  | uncaughtValueError
deriving DecidableEq

/-- Model of fetch._validate_url, checking in source order: parse,
deny-set scheme, allow-set scheme, the http opt-in flag, the blocked
host, the length ceiling.  The allowHttp flag models the
STEENBOK_ALLOW_HTTP environment toggle. -/
def validate_url (allowHttp : Bool) (url : String) : Except BlockReason Unit :=
  match urlsplitE url with
  | .error _ => .error .invalidUrl
  | .ok p =>
    let scheme := pyLower p.scheme
    let host := pyLower ((hostnameOf p.netloc).getD "")
    if BLOCKED_SCHEMES.contains scheme then .error (.blockedScheme scheme)
    else if ¬ (scheme = "http" ∨ scheme = "https") then .error (.unsupportedScheme scheme)
    else if scheme = "http" ∧ ¬ allowHttp then .error .httpNotAllowed
    else if is_blocked_host host then .error (.blockedHost host)
    else if 2048 < url.toList.length then .error .urlTooLong
    else .ok ()

/-- Response of the HTTP transport oracle: status, Location header,
declared content type, and the streamed body as a list of byte chunks
(bytes as naturals). -/
structure HResponse where
  status : Nat
  location : Option String
  contentType : String
  chunks : List (List Nat)
deriving DecidableEq

/-- Environment of one fetch call: the configuration surface
(http opt-in flag, the cached allowlist pattern set) and the external
collaborators as oracles — DNS resolution (none models gaierror), the
HTTP transport (none models a request error), urljoin, the PDF and HTML
extractors (treated as black boxes per the spec), the utf-8 decoder and
the regex tag-stripping fallback. -/
structure Env where
  allowHttp : Bool
  domains : List String
  getaddrinfo : String → Option (List String)
  net : String → Option HResponse
  urljoin : String → String → String
  pdfParse : List Nat → Option String
  decodeUtf8 : List Nat → String
  trafilaturaExtract : String → String → Option String
  stripTagsFallback : String → String

/-- Model of fetch._resolve_and_validate_host: resolve, block if any
returned address is blocked, then re-check the literal host rule. -/
def resolve_and_validate_host (env : Env) (host : String) : Except FetchErr Unit :=
  if host = "" then .error (.urlBlocked .hostNoHostname)
  else
    match env.getaddrinfo host with
    | none => .error (.urlBlocked (.hostUnreachable host))
    | some ips =>
      match ips.find? (fun ip => is_blocked_ip ip) with
      | some ip => .error (.urlBlocked (.resolvesToBlocked ip))
      | none =>
        if is_blocked_host host then .error (.urlBlocked (.blockedHost host))
        else .ok ()

/-- Model of fetch._validate_redirect_target: host presence, resolved-IP
classification, then the allowlist.  The URL Validator itself
(_validate_url) is not re-run here. -/
def validate_redirect_target (env : Env) (redirectUrl : String) : Except FetchErr Unit :=
  match urlsplitE redirectUrl with
  | .error _ => .error .uncaughtValueError
  | .ok p =>
    let host := pyLower ((hostnameOf p.netloc).getD "")
    if host = "" then .error (.urlBlocked .redirectNoHost)
    else
      match resolve_and_validate_host env host with
      | .error e => .error e
      | .ok _ =>
        if ¬ is_allowed env.domains redirectUrl then
          .error (.allowlistRejected redirectUrl)
        else .ok ()

/-- Model of the streaming loop of _do_fetch: append each chunk, stop
once the accumulated length exceeds MAX_RESPONSE_BYTES, keeping the
chunk that crossed the ceiling. -/
def stream_chunks : List (List Nat) → List Nat → List Nat
  | [], content => content
  | c :: cs, content =>
    let content2 := content ++ c
    if MAX_RESPONSE_BYTES < content2.length then content2
    else stream_chunks cs content2

/-- Model of the redirect loop of fetch._do_fetch.  The second component
of the result is the trace of URLs for which a request was issued
(client.stream entered).  The fuel argument stands for the loop bound:
do_fetch supplies MAX_REDIRECTS + 1, and since the loop errors out before
the redirect count can exceed MAX_REDIRECTS, the fuel-0 branch mirrors
the unreachable final raise of the Python loop. -/
def do_fetch_loop (env : Env) (origUrl : String) :
    Nat → String → Nat → List String →
      Except FetchErr (HResponse × List Nat) × List String
  | 0, _, _, trace => (.error (.tooManyRedirects origUrl), trace)
  | fuel + 1, currentUrl, redirectCount, trace =>
    let trace2 := trace ++ [currentUrl]
    match env.net currentUrl with
    | none => (.error .requestFailed, trace2)
    | some resp =>
      if 300 ≤ resp.status ∧ resp.status < 400 then
        let rc := redirectCount + 1
        if MAX_REDIRECTS < rc then (.error (.tooManyRedirects origUrl), trace2)
        else
          match resp.location with
          | none => (.error .redirectWithoutLocation, trace2)
          | some loc =>
            let target := env.urljoin currentUrl loc
            match validate_redirect_target env target with
            | .error e => (.error e, trace2)
            | .ok _ => do_fetch_loop env origUrl fuel target rc trace2
      else if 400 ≤ resp.status then (.error (.httpStatus resp.status), trace2)
      else (.ok (resp, stream_chunks resp.chunks []), trace2)

/-- Model of fetch._do_fetch. -/
def do_fetch (env : Env) (url : String) :
    Except FetchErr (HResponse × List Nat) × List String :=
  do_fetch_loop env url (MAX_REDIRECTS + 1) url 0 []

/-- Model of fetch._extract_text_pdf: the strict PDF ceiling is checked
before the parser oracle is consulted; a parser failure is an extraction
error; the extracted text is stripped, an empty result staying an
ordinary empty string. -/
def extract_text_pdf (env : Env) (content : List Nat) : Except FetchErr String :=
  if MAX_PDF_BYTES < content.length then
    .error (.extractionFailed "PDF exceeds maximum size")
  else
    match env.pdfParse content with
    | none =>
      .error (.extractionFailed "PDF could not be read (corrupted, encrypted, or unsupported)")
    | some text => .ok (pyStrip text)

/-- Model of fetch._extract_text: the primary extractor, falling back to
the tag-stripping pass when it yields nothing usable. -/
def extract_text (env : Env) (html url : String) : String :=
  match env.trafilaturaExtract html url with
  | some r => if pyStrip r ≠ "" then pyStrip r else env.stripTagsFallback html
  | none => env.stripTagsFallback html

/-- Whether a haystack string contains a needle substring (model of the
Python in operator on strings). -/
def listStartsWith : List Char → List Char → Bool
  | _, [] => true
  | [], _ :: _ => false
  | h :: hs, n :: ns => h = n && listStartsWith hs ns

def listHasInfix : List Char → List Char → Bool
  | [], needle => needle.isEmpty
  | h :: t, needle => listStartsWith (h :: t) needle || listHasInfix t needle

def strContains (hay needle : String) : Bool := listHasInfix hay.toList needle.toList

/-- Content types rejected outright by fetch.fetch, in source order; all
raise the same blocked-content-type failure. -/
def blocked_content_type (ct : String) : Bool :=
  strContains ct "application/msword"
    || strContains ct "application/vnd.ms-"
    || strContains ct "application/vnd.openxmlformats-officedocument"
    || strContains ct "application/rtf"
    || strContains ct "application/zip"
    || strContains ct "application/x-rar"
    || strContains ct "application/x-7z"
    || strContains ct "image/svg+xml"
    || strContains ct "application/javascript"
    || strContains ct "application/x-msdownload"

/-- Model of fetch.fetch: validate, allowlist, resolve the initial host,
run the redirect-following transport, dispatch on content type, extract,
and turn an empty final text into an extraction error.  The rate limiter
only affects timing and is modeled separately by rl_run.  The second
component is the trace of requested URLs. -/
def fetchRun (env : Env) (url : String) : Except FetchErr String × List String :=
  match validate_url env.allowHttp url with
  | .error r => (.error (.urlBlocked r), [])
  | .ok _ =>
    if ¬ is_allowed env.domains url then (.error (.allowlistRejected url), [])
    else
      match urlsplitE url with
      | .error _ => (.error .uncaughtValueError, [])
      | .ok p =>
        let host := pyLower ((hostnameOf p.netloc).getD "")
        match (if host ≠ "" then resolve_and_validate_host env host else .ok ()) with
        | .error e => (.error e, [])
        | .ok _ =>
          let dfr := do_fetch env url
          match dfr.1 with
          | .error e => (.error e, dfr.2)
          | .ok (resp, content) =>
            let ct := pyLower resp.contentType
            if blocked_content_type ct then (.error (.blockedContentType ct), dfr.2)
            else
              let textE :=
                if strContains ct "application/pdf" then extract_text_pdf env content
                else if strContains ct "text/html" || strContains ct "text/plain"
                    || strContains ct "application/xhtml+xml" then
                  .ok (extract_text env (env.decodeUtf8 content) url)
                else .error (.unsupportedContentType ct)
              match textE with
              | .error e => (.error e, dfr.2)
              | .ok text =>
                if text = "" then
                  (.error (.extractionFailed ("No extractable text: " ++ url)), dfr.2)
                else (.ok text, dfr.2)

/-! ## Rate limiter (fetch._rate_limit)

Clock readings are rationals, standing for the float values of
time.monotonic.  One lock-protected pass of the loop body reads the
clock twice (t1 for the elapsed computation, t2 for the recorded new
timestamp); a denied pass sleeps and retries, the retry being a later
attempt.  Concurrency only interleaves whole lock-protected passes, so a
process history is a list of passes with monotonically nondecreasing
clock values. -/

def DRAIN_INTERVAL_SEC : ℚ := 5

/-- One lock-protected pass: permitted (recording t2 as the new last
timestamp) iff at least the interval elapsed since the last permitted
start, or no fetch was ever permitted (the zero sentinel). -/
def rl_try (last t1 t2 : ℚ) : Option ℚ :=
  if DRAIN_INTERVAL_SEC ≤ t1 - last ∨ last = 0 then some t2 else none

/-- Run a history of passes, returning the recorded timestamps of the
permitted fetch starts. -/
def rl_run : ℚ → List (ℚ × ℚ) → List ℚ
  | _, [] => []
  | last, (t1, t2) :: rest =>
    match rl_try last t1 t2 with
    | some l2 => t2 :: rl_run l2 rest
    | none => rl_run last rest

/-- Clock consistency of a history: within a pass the first reading is
at most the second, and passes are serialized by the lock, so readings
never decrease across passes; c is a lower bound for all readings. -/
def ClockOrdered : ℚ → List (ℚ × ℚ) → Prop
  | _, [] => True
  | c, (t1, t2) :: rest => c ≤ t1 ∧ t1 ≤ t2 ∧ ClockOrdered t2 rest


/-- Concrete environment serving one small HTML page for every URL, with
public DNS answers. -/
def envHtml : Env where
  allowHttp := false
  domains := DEFAULT_ALLOWED
  getaddrinfo := fun _ => some ["8.8.8.8"]
  net := fun _ => some ⟨200, none, "text/html", [[104, 105]]⟩
  urljoin := fun _ l => l
  pdfParse := fun _ => none
  decodeUtf8 := fun _ => "hi"
  trafilaturaExtract := fun _ _ => some "hi"
  stripTagsFallback := fun _ => ""

/-- Concrete environment serving a small PDF whose extraction yields the
empty string. -/
def envPdf : Env where
  allowHttp := false
  domains := DEFAULT_ALLOWED
  getaddrinfo := fun _ => some ["8.8.8.8"]
  net := fun _ => some ⟨200, none, "application/pdf", [[1, 2, 3]]⟩
  urljoin := fun _ l => l
  pdfParse := fun _ => some ""
  decodeUtf8 := fun _ => ""
  trafilaturaExtract := fun _ _ => none
  stripTagsFallback := fun _ => ""

/-- Response whose single body chunk is one byte beyond the general
response ceiling. -/
def bigResp : HResponse :=
  ⟨200, none, "text/html", [List.replicate (MAX_RESPONSE_BYTES + 1) 0]⟩

/-- Concrete environment serving the oversized response for every URL. -/
def envBig : Env where
  allowHttp := false
  domains := DEFAULT_ALLOWED
  getaddrinfo := fun _ => some ["8.8.8.8"]
  net := fun _ => some bigResp
  urljoin := fun _ l => l
  pdfParse := fun _ => none
  decodeUtf8 := fun _ => ""
  trafilaturaExtract := fun _ _ => some "hi"
  stripTagsFallback := fun _ => ""

/-- Network serving a chain of three redirects ending at a small HTML
page, over allowlisted public hosts. -/
def chainNet3 : String → Option HResponse := fun u =>
  if u = "https://arxiv.org/0" then some ⟨302, some "https://arxiv.org/1", "", []⟩
  else if u = "https://arxiv.org/1" then some ⟨302, some "https://arxiv.org/2", "", []⟩
  else if u = "https://arxiv.org/2" then some ⟨302, some "https://arxiv.org/3", "", []⟩
  else if u = "https://arxiv.org/3" then some ⟨200, none, "text/html", [[104]]⟩
  else none

/-- Network serving a chain of four redirects over allowlisted public
hosts. -/
def chainNet4 : String → Option HResponse := fun u =>
  if u = "https://arxiv.org/0" then some ⟨302, some "https://arxiv.org/1", "", []⟩
  else if u = "https://arxiv.org/1" then some ⟨302, some "https://arxiv.org/2", "", []⟩
  else if u = "https://arxiv.org/2" then some ⟨302, some "https://arxiv.org/3", "", []⟩
  else if u = "https://arxiv.org/3" then some ⟨302, some "https://arxiv.org/4", "", []⟩
  else none

def envChain3 : Env where
  allowHttp := false
  domains := DEFAULT_ALLOWED
  getaddrinfo := fun _ => some ["8.8.8.8"]
  net := chainNet3
  urljoin := fun _ l => l
  pdfParse := fun _ => none
  decodeUtf8 := fun _ => "hi"
  trafilaturaExtract := fun _ _ => some "hi"
  stripTagsFallback := fun _ => ""

def envChain4 : Env where
  allowHttp := false
  domains := DEFAULT_ALLOWED
  getaddrinfo := fun _ => some ["8.8.8.8"]
  net := chainNet4
  urljoin := fun _ l => l
  pdfParse := fun _ => none
  decodeUtf8 := fun _ => "hi"
  trafilaturaExtract := fun _ _ => some "hi"
  stripTagsFallback := fun _ => ""

/-- Network answering an allowlisted https page with a redirect to the
plain-http URL of the same allowlisted host. -/
def envDowngrade : Env where
  allowHttp := false
  domains := DEFAULT_ALLOWED
  getaddrinfo := fun _ => some ["8.8.8.8"]
  net := fun u =>
    if u = "https://arxiv.org/a" then
      some ⟨302, some "http://arxiv.org/b", "", []⟩
    else if u = "http://arxiv.org/b" then
      some ⟨200, none, "text/html", [[104]]⟩
    else none
  urljoin := fun _ l => l
  pdfParse := fun _ => none
  decodeUtf8 := fun _ => "hi"
  trafilaturaExtract := fun _ _ => some "hi"
  stripTagsFallback := fun _ => ""

/-- Concrete environment with no reachable network, used to exercise the
pre-network validation stages. -/
def envNone : Env where
  allowHttp := false
  domains := DEFAULT_ALLOWED
  getaddrinfo := fun _ => none
  net := fun _ => none
  urljoin := fun _ l => l
  pdfParse := fun _ => none
  decodeUtf8 := fun _ => ""
  trafilaturaExtract := fun _ _ => none
  stripTagsFallback := fun _ => ""

example : fnmatch "cs.berkeley.edu" "*.edu" = true := by decide
example : fnmatch "edu" "*.edu" = false := by decide
example : fnmatch "en.wikipedia.org" "*.wikipedia.org" = true := by decide
example : is_allowed DEFAULT_ALLOWED "https://en.wikipedia.org/wiki/Test" = true := by decide
example : is_allowed DEFAULT_ALLOWED "https://arxiv.org/abs/2401.12345" = true := by decide
example : is_allowed DEFAULT_ALLOWED "https://pubmed.ncbi.nlm.nih.gov/12345" = true := by decide
example : is_allowed DEFAULT_ALLOWED "https://www.ncbi.nlm.nih.gov/gene/123" = true := by decide
example : is_allowed DEFAULT_ALLOWED "https://example.com/page" = false := by decide
example : is_allowed DEFAULT_ALLOWED "file:///etc/passwd" = false := by decide
example : is_allowed DEFAULT_ALLOWED "javascript:alert(1)" = false := by decide
example : is_allowed DEFAULT_ALLOWED "https://localhost/admin" = false := by decide
example : is_allowed DEFAULT_ALLOWED "not-a-url" = false := by decide
example : is_allowed DEFAULT_ALLOWED "" = false := by decide
example : normalize_host "https://EN.Wikipedia.org:443/x" = some "en.wikipedia.org" := by decide
example : urlsplitE "https://[::1]/x" = .ok ⟨"https", "[::1]"⟩ := by decide
example : urlsplitE "https://[::1/x" = .error () := by decide
example : hostnameOf "[::1]" = some "::1" := by decide
example : hostnameOf "user@Host.EX:8080" = some "host.ex" := by decide
example : is_blocked_ip "169.254.169.254" = true := by decide
example : is_blocked_ip "0.0.0.0" = true := by decide
example : is_blocked_ip "10.0.0.1" = true := by decide
example : is_blocked_ip "192.168.1.1" = true := by decide
example : is_blocked_ip "172.16.0.1" = true := by decide
example : is_blocked_ip "127.0.0.1" = true := by decide
example : is_blocked_ip "::1" = true := by decide
example : is_blocked_ip "8.8.8.8" = false := by decide
example : is_blocked_ip "1.1.1.1" = false := by decide
example : is_blocked_ip "93.184.216.34" = false := by decide
example : is_blocked_ip "::ffff:127.0.0.1" = true := by decide
example : is_blocked_ip "fe80::1" = true := by decide
example : is_blocked_ip "2606:4700::1111" = false := by decide
example : is_blocked_host "localhost" = true := by decide
example : is_blocked_host "LOCALHOST" = true := by decide
example : is_blocked_host "[::1]" = true := by decide
example : is_blocked_host "arxiv.org" = false := by decide
example : is_blocked_host "" = true := by decide
example : ip_address "1.2.3.4.5" = none := by decide
example : ip_address "256.1.1.1" = none := by decide
example : ip_address "01.2.3.4" = none := by decide
example : parseIPv6 "fe80::1%eth0" = parseIPv6 "fe80::1" := by decide
example : parseIPv6 "1:2:3:4:5:6:7::8" = none := by decide
example : parseIPv6 ":::1" = none := by decide

example : (fetchRun envNone "file:///etc/passwd").1 =
    .error (.urlBlocked (.blockedScheme "file")) := by decide
example : fetchRun envNone "https://example.com/page" =
    (.error (.allowlistRejected "https://example.com/page"), []) := by decide
example : (fetchRun envNone "https://127.0.0.1/admin").1 =
    .error (.urlBlocked (.blockedHost "127.0.0.1")) := by decide

/-! ## Claim C3: the Host/IP Classifier decision rule -/

/-- C3 (amended): for a nonempty token, the classifier decision is the
parse split on the normalized token (lowercased, whitespace-stripped,
brackets unwrapped): a literal IP is blocked iff private, loopback,
link-local, reserved or unspecified; a non-IP token is blocked iff it is
one of the fixed local hostnames.  The empty token, which the claim as
stated would leave unblocked, is excluded here and treated by the
counterexample. -/
theorem C3_amended_classifier (host : String) (hne : host ≠ "") :
    is_blocked_host host =
      (match ip_address (pyStrip (hostToken host)) with
       | some a =>
         a.is_private || a.is_loopback || a.is_link_local || a.is_reserved
           || a.is_unspecified
       | none => BLOCKED_HOSTNAMES.contains (hostToken host)) := by
  simp only [is_blocked_host]
  rw [if_neg hne]
  by_cases hc : BLOCKED_HOSTNAMES.contains (hostToken host) = true
  · rw [if_pos hc]
    have hmem : hostToken host ∈ BLOCKED_HOSTNAMES := by simpa using hc
    have hloc : hostToken host = "localhost" ∨
        hostToken host = "localhost.localdomain" := by
      simpa [BLOCKED_HOSTNAMES] using hmem
    rcases hloc with h | h <;> rw [h] <;> decide
  · rw [if_neg hc]
    have hcf : BLOCKED_HOSTNAMES.contains (hostToken host) = false :=
      Bool.not_eq_true _ |>.mp hc
    unfold is_blocked_ip
    cases hip : ip_address (pyStrip (hostToken host)) with
    | none => rw [hcf]
    | some a => rfl

/-- Witness for C3 at the loopback literal. -/
theorem C3_witness :
    "127.0.0.1" ≠ "" ∧
      is_blocked_host "127.0.0.1" =
        (match ip_address (pyStrip (hostToken "127.0.0.1")) with
         | some a =>
           a.is_private || a.is_loopback || a.is_link_local || a.is_reserved
             || a.is_unspecified
         | none => BLOCKED_HOSTNAMES.contains (hostToken "127.0.0.1")) :=
  ⟨by decide, C3_amended_classifier "127.0.0.1" (by decide)⟩

/-- Counterexample for C3 as stated: the empty token neither parses as a
literal IP nor equals a local hostname, yet the classifier blocks it. -/
theorem C3_counterexample :
    is_blocked_host "" = true ∧ ip_address (pyStrip (hostToken "")) = none ∧
      BLOCKED_HOSTNAMES.contains (hostToken "") = false := by decide

/-! ## Claim C6: deny-set schemes fail before any network call -/

/-- C6: a URL whose parsed scheme is in the deny set is rejected by the
URL Validator with the distinct blocked-scheme diagnostic (showing the
deny-set check precedes the http/https allow-set check), and fetch makes
no network request for it: the request trace is empty. -/
theorem C6_blocked_schemes (env : Env) (url : String) (p : SplitResult)
    (hp : urlsplitE url = .ok p)
    (hs : pyLower p.scheme ∈ BLOCKED_SCHEMES) :
    validate_url env.allowHttp url = .error (.blockedScheme (pyLower p.scheme)) ∧
      fetchRun env url =
        (.error (.urlBlocked (.blockedScheme (pyLower p.scheme))), []) := by
  have hc : BLOCKED_SCHEMES.contains (pyLower p.scheme) = true := by
    simpa using hs
  have hv : validate_url env.allowHttp url =
      .error (.blockedScheme (pyLower p.scheme)) := by
    unfold validate_url
    rw [hp]
    dsimp only
    rw [if_pos hc]
  refine ⟨hv, ?_⟩
  unfold fetchRun
  rw [hv]

/-- Witness for C6 at the file scheme. -/
theorem C6_witness :
    urlsplitE "file:///etc/passwd" = .ok ⟨"file", ""⟩ ∧
      pyLower "file" ∈ BLOCKED_SCHEMES ∧
      (validate_url envNone.allowHttp "file:///etc/passwd" =
          .error (.blockedScheme (pyLower "file")) ∧
        fetchRun envNone "file:///etc/passwd" =
          (.error (.urlBlocked (.blockedScheme (pyLower "file"))), [])) :=
  ⟨by decide, by decide,
    C6_blocked_schemes envNone "file:///etc/passwd" ⟨"file", ""⟩ (by decide)
      (by decide)⟩

/-! ## Claim C7: the allowlist decision rule -/

/-- C7: is_allowed is true exactly when the URL yields an extractable
normalized host, the parsed scheme is exactly http or https, and the
host glob-matches some loaded pattern; and the star matches any run of
characters, so the dotted academic wildcard matches a subdomain host but
not the bare suffix. -/
theorem C7_is_allowed_iff (domains : List String) (url : String) :
    (is_allowed domains url = true ↔
      ∃ host p, normalize_host url = some host ∧ urlsplitE url = .ok p ∧
        (pyLower p.scheme = "http" ∨ pyLower p.scheme = "https") ∧
        ∃ pat ∈ domains, host_matches_pattern host pat = true) ∧
      host_matches_pattern "cs.berkeley.edu" "*.edu" = true ∧
      host_matches_pattern "edu" "*.edu" = false := by
  refine ⟨?_, by decide, by decide⟩
  unfold is_allowed
  cases hn : normalize_host url with
  | none =>
    constructor
    · intro h; cases h
    · rintro ⟨host, p, hh, -⟩
      cases hh
  | some host =>
    cases hu : urlsplitE url with
    | error e =>
      constructor
      · intro h; cases h
      · rintro ⟨host2, p, hh2, hp, -⟩
        cases hp
    | ok p =>
      dsimp only
      by_cases hsch : pyLower p.scheme = "http" ∨ pyLower p.scheme = "https"
      · rw [if_neg (not_not_intro hsch), List.any_eq_true]
        constructor
        · rintro ⟨pat, hpat, hm⟩
          exact ⟨host, p, rfl, rfl, hsch, pat, hpat, hm⟩
        · rintro ⟨host2, p2, hh2, hp2, -, pat, hpat, hm⟩
          cases hh2
          cases hp2
          exact ⟨pat, hpat, hm⟩
      · rw [if_pos hsch]
        constructor
        · intro h; cases h
        · rintro ⟨host2, p2, hh2, hp2, hs2, -⟩
          cases hp2
          exact absurd hs2 hsch

/-! ## Claim C9: purity of is_allowed under a loaded cache -/

/-- C9: with the pattern cache loaded, a call to is_allowed leaves the
cache unchanged, and a repeated call on the same URL returns the same
result. -/
theorem C9_is_allowed_pure (cfg : AllowlistConfig) (s : AllowlistState)
    (url : String) (d : List String) (hc : s.cached = some d) :
    (is_allowed_st cfg s url).2 = s ∧
      (is_allowed_st cfg ((is_allowed_st cfg s url).2) url).1 =
        (is_allowed_st cfg s url).1 := by
  have hget : get_domains cfg s = (d, s) := by
    unfold get_domains
    rw [hc]
  have hstate : (is_allowed_st cfg s url).2 = s := by
    unfold is_allowed_st
    cases hn : normalize_host url with
    | none => rfl
    | some host =>
      cases hu : urlsplitE url with
      | error e => rfl
      | ok p =>
        dsimp only
        by_cases hsch : ¬ (pyLower p.scheme = "http" ∨ pyLower p.scheme = "https")
        · rw [if_pos hsch]
        · rw [if_neg hsch]
          dsimp only
          rw [hget]
  exact ⟨hstate, by rw [hstate]⟩

/-- Witness for C9 on an arxiv URL with the default pattern set cached. -/
theorem C9_witness :
    (AllowlistState.mk (some DEFAULT_ALLOWED)).cached = some DEFAULT_ALLOWED ∧
      ((is_allowed_st ⟨none, ""⟩ ⟨some DEFAULT_ALLOWED⟩ "https://arxiv.org/abs/1").2 =
          ⟨some DEFAULT_ALLOWED⟩ ∧
        (is_allowed_st ⟨none, ""⟩
            ((is_allowed_st ⟨none, ""⟩ ⟨some DEFAULT_ALLOWED⟩ "https://arxiv.org/abs/1").2)
            "https://arxiv.org/abs/1").1 =
          (is_allowed_st ⟨none, ""⟩ ⟨some DEFAULT_ALLOWED⟩ "https://arxiv.org/abs/1").1) :=
  ⟨rfl, C9_is_allowed_pure ⟨none, ""⟩ ⟨some DEFAULT_ALLOWED⟩ "https://arxiv.org/abs/1"
    DEFAULT_ALLOWED rfl⟩

/-! ## Claim C10: empty or absent host in URL validation -/

/-- C10 (amended): the classifier blocks the empty host, and an http or
https URL with no extractable hostname is rejected by the URL Validator
with the blocked-host diagnostic whenever the scheme gate lets the URL
reach the host check (https always, http only with the opt-in flag); an
empty-host plain-http URL without the flag is still rejected, but with
the http-not-allowed diagnostic, as the counterexample shows. -/
theorem C10_empty_host_blocked (allowHttp : Bool) (url : String) (p : SplitResult)
    (hp : urlsplitE url = .ok p)
    (hs : pyLower p.scheme = "https" ∨ (pyLower p.scheme = "http" ∧ allowHttp = true))
    (hh : hostnameOf p.netloc = none) :
    is_blocked_host "" = true ∧
      validate_url allowHttp url = .error (.blockedHost "") := by
  refine ⟨by decide, ?_⟩
  unfold validate_url
  rw [hp]
  dsimp only
  rw [hh]
  dsimp only [Option.getD]
  rcases hs with h | ⟨h, ha⟩
  · rw [h]
    rw [if_neg (by decide : ¬ (BLOCKED_SCHEMES.contains "https" = true)),
      if_neg (by decide : ¬ ¬ ("https" = "http" ∨ "https" = "https")),
      if_neg (show ¬ ("https" = "http" ∧ ¬ allowHttp = true) from
        fun hx => absurd hx.1 (by decide)),
      if_pos (by decide : is_blocked_host (pyLower "") = true)]
    decide
  · subst ha
    rw [h]
    rw [if_neg (by decide : ¬ (BLOCKED_SCHEMES.contains "http" = true)),
      if_neg (by decide : ¬ ¬ ("http" = "http" ∨ "http" = "https")),
      if_neg (by decide : ¬ ("http" = "http" ∧ ¬ true = true)),
      if_pos (by decide : is_blocked_host (pyLower "") = true)]
    decide

/-- Witness for C10 at an https URL with an empty netloc. -/
theorem C10_witness :
    urlsplitE "https://" = .ok ⟨"https", ""⟩ ∧
      (is_blocked_host "" = true ∧
        validate_url false "https://" = .error (.blockedHost "")) :=
  ⟨by decide,
    C10_empty_host_blocked false "https://" ⟨"https", ""⟩ (by decide)
      (.inl (by decide)) (by decide)⟩

/-- Counterexample for C10 as stated: the host-less plain-http URL is
rejected with the http-not-allowed diagnostic, not the blocked-host one,
when the opt-in flag is off. -/
theorem C10_counterexample :
    urlsplitE "http://" = .ok ⟨"http", ""⟩ ∧ hostnameOf "" = none ∧
      validate_url false "http://" = .error .httpNotAllowed ∧
      BlockReason.httpNotAllowed ≠ .blockedHost "" := by decide

/-! ## Claim C2: the response size ceiling -/

/-- Streaming stops within one chunk of the ceiling: if every chunk is at
most C bytes and the accumulator is within the ceiling, the streamed
result is at most the ceiling plus C. -/
theorem stream_chunks_le {C : Nat} :
    ∀ (chunks : List (List Nat)) (acc : List Nat),
      (∀ c ∈ chunks, c.length ≤ C) → acc.length ≤ MAX_RESPONSE_BYTES →
      (stream_chunks chunks acc).length ≤ MAX_RESPONSE_BYTES + C := by
  intro chunks
  induction chunks with
  | nil =>
    intro acc _ hacc
    unfold stream_chunks
    omega
  | cons c cs ih =>
    intro acc h hacc
    unfold stream_chunks
    dsimp only
    by_cases hb : MAX_RESPONSE_BYTES < (acc ++ c).length
    · rw [if_pos hb]
      have hcl : c.length ≤ C := h c (by simp)
      rw [List.length_append]
      omega
    · rw [if_neg hb]
      refine ih (acc ++ c) (fun x hx => h x (by simp [hx])) ?_
      rw [List.length_append] at hb ⊢
      omega

/-- The streamed result is the flattening of a chunk prefix, and the
transfer is cut short only once the accumulated length has crossed the
ceiling. -/
theorem stream_chunks_take :
    ∀ (chunks : List (List Nat)) (acc : List Nat),
      ∃ k, stream_chunks chunks acc = acc ++ (chunks.take k).flatten ∧
        (k < chunks.length →
          MAX_RESPONSE_BYTES < (stream_chunks chunks acc).length) := by
  intro chunks
  induction chunks with
  | nil =>
    intro acc
    exact ⟨0, by simp [stream_chunks], by simp⟩
  | cons c cs ih =>
    intro acc
    unfold stream_chunks
    dsimp only
    by_cases hb : MAX_RESPONSE_BYTES < (acc ++ c).length
    · rw [if_pos hb]
      exact ⟨1, by simp, fun _ => hb⟩
    · rw [if_neg hb]
      obtain ⟨k, hk, hstop⟩ := ih (acc ++ c)
      refine ⟨k + 1, ?_, ?_⟩
      · rw [hk]
        simp
      · intro hlt
        exact hstop (by simpa using hlt)

/-- C2 (amended): a non-redirect, non-error response is streamed to
completion of the do_fetch call (.ok, truncation is not an error); the
returned body is a prefix-flattening of the chunks, cut short only after
the accumulated count crosses the general ceiling, so it never exceeds
the ceiling by more than one chunk (at most the ceiling plus the largest
chunk size). -/
theorem C2_amended_size_ceiling (env : Env) (url : String) (resp : HResponse)
    (C : Nat) (hn : env.net url = some resp) (hs : resp.status < 300)
    (hc : ∀ c ∈ resp.chunks, c.length ≤ C) :
    (do_fetch env url).1 = .ok (resp, stream_chunks resp.chunks []) ∧
      (stream_chunks resp.chunks []).length ≤ MAX_RESPONSE_BYTES + C ∧
      ∃ k, stream_chunks resp.chunks [] = (resp.chunks.take k).flatten ∧
        (k < resp.chunks.length →
          MAX_RESPONSE_BYTES < (stream_chunks resp.chunks []).length) := by
  refine ⟨?_, stream_chunks_le _ _ hc (by simp), ?_⟩
  · unfold do_fetch
    rw [do_fetch_loop]
    rw [hn]
    dsimp only
    rw [if_neg (by omega : ¬ (300 ≤ resp.status ∧ resp.status < 400)),
      if_neg (by omega : ¬ 400 ≤ resp.status)]
  · obtain ⟨k, hk, hstop⟩ := stream_chunks_take resp.chunks []
    exact ⟨k, by simpa using hk, hstop⟩

/-- Witness for C2 on a response one byte past the five-MiB ceiling. -/
theorem bigResp_chunk_bound :
    ∀ c ∈ bigResp.chunks, c.length ≤ MAX_RESPONSE_BYTES + 1 := by
  intro c hcm
  simp only [bigResp, List.mem_singleton] at hcm
  simp [hcm]

theorem C2_witness :
    envBig.net "https://arxiv.org/big" = some bigResp ∧ bigResp.status < 300 ∧
      (∀ c ∈ bigResp.chunks, c.length ≤ MAX_RESPONSE_BYTES + 1) ∧
      ((do_fetch envBig "https://arxiv.org/big").1 =
          .ok (bigResp, stream_chunks bigResp.chunks []) ∧
        (stream_chunks bigResp.chunks []).length ≤
          MAX_RESPONSE_BYTES + (MAX_RESPONSE_BYTES + 1) ∧
        ∃ k, stream_chunks bigResp.chunks [] = (bigResp.chunks.take k).flatten ∧
          (k < bigResp.chunks.length →
            MAX_RESPONSE_BYTES < (stream_chunks bigResp.chunks []).length)) := by
  refine ⟨rfl, by norm_num [bigResp], bigResp_chunk_bound, ?_⟩
  exact C2_amended_size_ceiling envBig "https://arxiv.org/big" bigResp
    (MAX_RESPONSE_BYTES + 1) rfl (by norm_num [bigResp]) bigResp_chunk_bound

/-- Counterexample for C2 as stated: the chunk that crosses the ceiling
is kept in full, so the returned body can exceed MAX_RESPONSE_BYTES —
here by one byte — while the call still completes successfully. -/
theorem C2_counterexample :
    MAX_RESPONSE_BYTES < (stream_chunks bigResp.chunks []).length ∧
      (do_fetch envBig "https://arxiv.org/big").1 =
        .ok (bigResp, stream_chunks bigResp.chunks []) := by
  constructor
  · show MAX_RESPONSE_BYTES <
      (stream_chunks [List.replicate (MAX_RESPONSE_BYTES + 1) 0] []).length
    unfold stream_chunks
    dsimp only
    rw [if_pos (by simp)]
    simp
  · unfold do_fetch
    rw [do_fetch_loop]
    rw [show envBig.net "https://arxiv.org/big" = some bigResp from rfl]
    dsimp only
    rw [if_neg (by norm_num [bigResp] : ¬ (300 ≤ bigResp.status ∧ bigResp.status < 400)),
      if_neg (by norm_num [bigResp] : ¬ 400 ≤ bigResp.status)]

/-! ## Claim C5: the rate limiter interval -/

/-- Invariant of the rate-limiter loop after the first permitted fetch:
with a positive recorded timestamp and a clock-consistent remaining
history, consecutive permitted timestamps are at least the interval
apart, and the first permitted timestamp is at least an interval after
the recorded one. -/
theorem rl_run_chain :
    ∀ (attempts : List (ℚ × ℚ)) (c last : ℚ),
      ClockOrdered c attempts → 0 < c → 0 < last →
      List.Chain' (fun a b => a + DRAIN_INTERVAL_SEC ≤ b) (rl_run last attempts) ∧
        ∀ y ∈ (rl_run last attempts).head?, last + DRAIN_INTERVAL_SEC ≤ y := by
  intro attempts
  induction attempts with
  | nil =>
    intro c last _ _ _
    constructor
    · simp [rl_run]
    · intro y hy
      simp [rl_run] at hy
  | cons a rest ih =>
    intro c last h hc hlast
    obtain ⟨t1, t2⟩ := a
    obtain ⟨h1, h12, hrest⟩ := h
    unfold rl_run rl_try
    by_cases h5 : DRAIN_INTERVAL_SEC ≤ t1 - last
    · rw [if_pos (.inl h5)]
      have hmain := ih t2 t2 hrest (by linarith) (by linarith)
      constructor
      · rw [List.chain'_cons']
        exact ⟨hmain.2, hmain.1⟩
      · intro y hy
        simp at hy
        subst hy
        linarith
    · rw [if_neg (fun hor =>
        hor.elim h5 (fun h0 => absurd h0 (ne_of_gt hlast)))]
      exact ih t2 last hrest (by linarith) hlast

/-- C5: starting from the zero sentinel (process start), any
clock-consistent history of rate-limiter passes with positive clock
readings yields permitted-start timestamps that consecutive pairs of
which are separated by at least the five-second interval — at most one
fetch proceeds per interval regardless of how callers interleave. -/
theorem C5_rate_limiter (c : ℚ) (attempts : List (ℚ × ℚ))
    (hc : 0 < c) (h : ClockOrdered c attempts) :
    List.Chain' (fun a b => a + DRAIN_INTERVAL_SEC ≤ b) (rl_run 0 attempts) := by
  cases attempts with
  | nil => simp [rl_run]
  | cons a rest =>
    obtain ⟨t1, t2⟩ := a
    obtain ⟨h1, h12, hrest⟩ := h
    unfold rl_run rl_try
    rw [if_pos (.inr rfl)]
    rw [List.chain'_cons']
    have hmain := rl_run_chain rest t2 t2 hrest (by linarith) (by linarith)
    exact ⟨hmain.2, hmain.1⟩

/-- Witness for C5 on a four-pass history: passes at times 1, 3, 6 and
11/12; the pass at 3 is denied, and the permitted starts 1, 6, 12 are
spaced at least five seconds apart. -/
theorem C5_witness :
    (0 : ℚ) < 1 ∧
      ClockOrdered 1 [((1 : ℚ), (1 : ℚ)), (3, 3), (6, 6), (11, 12)] ∧
      List.Chain' (fun a b => a + DRAIN_INTERVAL_SEC ≤ b)
        (rl_run 0 [((1 : ℚ), (1 : ℚ)), (3, 3), (6, 6), (11, 12)]) :=
  ⟨by norm_num, by norm_num [ClockOrdered],
    C5_rate_limiter 1 _ (by norm_num) (by norm_num [ClockOrdered])⟩

/-! ## Claim C4: the redirect ceiling -/

/-- One validated redirect hop of the transport loop: the hop is
requested, drained, counted, validated and followed. -/
theorem do_fetch_loop_redirect_step (env : Env) (orig current loc target : String)
    (fuel count : Nat) (trace : List String) (hfuel : 0 < fuel)
    (hnet : env.net current = some ⟨302, some loc, "", []⟩)
    (hj : env.urljoin current loc = target)
    (hv : validate_redirect_target env target = .ok ())
    (hcount : count + 1 ≤ MAX_REDIRECTS) :
    do_fetch_loop env orig fuel current count trace =
      do_fetch_loop env orig (fuel - 1) target (count + 1) (trace ++ [current]) := by
  obtain ⟨f, rfl⟩ : ∃ f, fuel = f + 1 := ⟨fuel - 1, by omega⟩
  simp only [Nat.add_sub_cancel]
  rw [do_fetch_loop, hnet]
  dsimp only
  rw [if_pos (by decide : 300 ≤ 302 ∧ 302 < 400),
    if_neg (by omega : ¬ MAX_REDIRECTS < count + 1)]
  try dsimp only
  rw [hj, hv]

/-- Terminal hop of the transport loop: a non-redirect, non-error
response is streamed and returned. -/
theorem do_fetch_loop_final_step (env : Env) (orig current : String)
    (fuel count : Nat) (trace : List String) (resp : HResponse)
    (hfuel : 0 < fuel) (hnet : env.net current = some resp)
    (hst : resp.status < 300) :
    do_fetch_loop env orig fuel current count trace =
      (.ok (resp, stream_chunks resp.chunks []), trace ++ [current]) := by
  obtain ⟨f, rfl⟩ : ∃ f, fuel = f + 1 := ⟨fuel - 1, by omega⟩
  rw [do_fetch_loop, hnet]
  try dsimp only
  rw [if_neg (by omega : ¬ (300 ≤ resp.status ∧ resp.status < 400)),
    if_neg (by omega : ¬ 400 ≤ resp.status)]

/-- Hop past the ceiling: a redirect response whose incremented count
exceeds MAX_REDIRECTS aborts with the too-many-redirects failure before
its target is examined. -/
theorem do_fetch_loop_toomany_step (env : Env) (orig current loc : String)
    (fuel count : Nat) (trace : List String) (hfuel : 0 < fuel)
    (hnet : env.net current = some ⟨302, some loc, "", []⟩)
    (hcount : MAX_REDIRECTS < count + 1) :
    do_fetch_loop env orig fuel current count trace =
      (.error (.tooManyRedirects orig), trace ++ [current]) := by
  obtain ⟨f, rfl⟩ : ∃ f, fuel = f + 1 := ⟨fuel - 1, by omega⟩
  rw [do_fetch_loop, hnet]
  try dsimp only
  rw [if_pos (by decide : 300 ≤ 302 ∧ 302 < 400),
    if_pos hcount]

/-- C4: with every hop target passing redirect validation (allowlisted,
public), a chain of exactly three redirects succeeds and returns the
final streamed body, while a chain of four redirects fails hard with the
too-many-redirects error — never a silent truncation of the chain. -/
theorem C4_redirect_ceiling (env3 env4 : Env) (u0 u1 u2 u3 u4 : String)
    (rfinal : HResponse)
    (h30 : env3.net u0 = some ⟨302, some u1, "", []⟩)
    (h31 : env3.net u1 = some ⟨302, some u2, "", []⟩)
    (h32 : env3.net u2 = some ⟨302, some u3, "", []⟩)
    (h33 : env3.net u3 = some rfinal)
    (hst : rfinal.status < 300)
    (hj3 : ∀ a b, env3.urljoin a b = b)
    (hv31 : validate_redirect_target env3 u1 = .ok ())
    (hv32 : validate_redirect_target env3 u2 = .ok ())
    (hv33 : validate_redirect_target env3 u3 = .ok ())
    (h40 : env4.net u0 = some ⟨302, some u1, "", []⟩)
    (h41 : env4.net u1 = some ⟨302, some u2, "", []⟩)
    (h42 : env4.net u2 = some ⟨302, some u3, "", []⟩)
    (h43 : env4.net u3 = some ⟨302, some u4, "", []⟩)
    (hj4 : ∀ a b, env4.urljoin a b = b)
    (hv41 : validate_redirect_target env4 u1 = .ok ())
    (hv42 : validate_redirect_target env4 u2 = .ok ())
    (hv43 : validate_redirect_target env4 u3 = .ok ()) :
    (do_fetch env3 u0).1 = .ok (rfinal, stream_chunks rfinal.chunks []) ∧
      (do_fetch env4 u0).1 = .error (.tooManyRedirects u0) := by
  constructor
  · unfold do_fetch
    rw [do_fetch_loop_redirect_step env3 u0 u0 u1 u1 _ _ _ (by decide) h30
        (hj3 _ _) hv31 (by decide),
      do_fetch_loop_redirect_step env3 u0 u1 u2 u2 _ _ _ (by decide) h31
        (hj3 _ _) hv32 (by decide),
      do_fetch_loop_redirect_step env3 u0 u2 u3 u3 _ _ _ (by decide) h32
        (hj3 _ _) hv33 (by decide),
      do_fetch_loop_final_step env3 u0 u3 _ _ _ rfinal (by decide) h33 hst]
  · unfold do_fetch
    rw [do_fetch_loop_redirect_step env4 u0 u0 u1 u1 _ _ _ (by decide) h40
        (hj4 _ _) hv41 (by decide),
      do_fetch_loop_redirect_step env4 u0 u1 u2 u2 _ _ _ (by decide) h41
        (hj4 _ _) hv42 (by decide),
      do_fetch_loop_redirect_step env4 u0 u2 u3 u3 _ _ _ (by decide) h42
        (hj4 _ _) hv43 (by decide),
      do_fetch_loop_toomany_step env4 u0 u3 u4 _ _ _ (by decide) h43 (by decide)]

/-- Witness for C4 on a concrete chain over arxiv.org hosts: three
redirects succeed with the final body, four fail with the
too-many-redirects error. -/
theorem C4_witness :
    envChain3.net "https://arxiv.org/0" =
        some ⟨302, some "https://arxiv.org/1", "", []⟩ ∧
      validate_redirect_target envChain3 "https://arxiv.org/1" = .ok () ∧
      validate_redirect_target envChain4 "https://arxiv.org/3" = .ok () ∧
      ((do_fetch envChain3 "https://arxiv.org/0").1 =
          .ok (⟨200, none, "text/html", [[104]]⟩, stream_chunks [[104]] []) ∧
        (do_fetch envChain4 "https://arxiv.org/0").1 =
          .error (.tooManyRedirects "https://arxiv.org/0")) :=
  ⟨by decide, by decide, by decide,
    C4_redirect_ceiling envChain3 envChain4 "https://arxiv.org/0"
      "https://arxiv.org/1" "https://arxiv.org/2" "https://arxiv.org/3"
      "https://arxiv.org/4" ⟨200, none, "text/html", [[104]]⟩
      (by decide) (by decide) (by decide) (by decide) (by decide)
      (fun a b => rfl) (by decide) (by decide) (by decide)
      (by decide) (by decide) (by decide) (by decide)
      (fun a b => rfl) (by decide) (by decide) (by decide)⟩

/-! ## Claim C1: the per-hop validation chain -/

/-- Trace structure of the transport loop: it either adds nothing to the
trace (impossible with positive fuel, kept for the induction) or adds the
current URL followed only by redirect targets that passed the redirect
validation (resolved-address classification and allowlist) before being
requested. -/
theorem do_fetch_loop_structure (env : Env) (orig : String) :
    ∀ (fuel : Nat) (current : String) (count : Nat) (trace : List String),
      (do_fetch_loop env orig fuel current count trace).2 = trace ∨
      ∃ rest, (do_fetch_loop env orig fuel current count trace).2 =
          trace ++ current :: rest ∧
        ∀ u ∈ rest, validate_redirect_target env u = .ok () := by
  intro fuel
  induction fuel with
  | zero => intro current count trace; exact .inl rfl
  | succ fuel ih =>
    intro current count trace
    rw [do_fetch_loop]
    dsimp only
    cases hnet : env.net current with
    | none => exact .inr ⟨[], by simp, by simp⟩
    | some resp =>
      dsimp only
      by_cases hst : 300 ≤ resp.status ∧ resp.status < 400
      · rw [if_pos hst]
        by_cases hcnt : MAX_REDIRECTS < count + 1
        · rw [if_pos hcnt]
          exact .inr ⟨[], by simp, by simp⟩
        · rw [if_neg hcnt]
          cases hloc : resp.location with
          | none => exact .inr ⟨[], by simp, by simp⟩
          | some loc =>
            dsimp only
            cases hv : validate_redirect_target env (env.urljoin current loc) with
            | error e => exact .inr ⟨[], by simp, by simp⟩
            | ok v =>
              cases v
              rcases ih (env.urljoin current loc) (count + 1) (trace ++ [current])
                with h | ⟨rest, hr, hval⟩
              · exact .inr ⟨[], by simp [h], by simp⟩
              · refine .inr ⟨env.urljoin current loc :: rest, ?_, ?_⟩
                · rw [hr]; simp
                · intro u hu
                  rcases List.mem_cons.mp hu with h2 | h2
                  · rw [h2]; exact hv
                  · exact hval u h2
      · rw [if_neg hst]
        by_cases h4 : 400 ≤ resp.status
        · rw [if_pos h4]
          exact .inr ⟨[], by simp, by simp⟩
        · rw [if_neg h4]
          exact .inr ⟨[], by simp, by simp⟩

/-- URL validation succeeding implies the URL parsed. -/
theorem validate_url_ok_urlsplit {allowHttp : Bool} {url : String}
    (h : validate_url allowHttp url = .ok ()) : ∃ p, urlsplitE url = .ok p := by
  unfold validate_url at h
  cases hu : urlsplitE url with
  | error e => rw [hu] at h; cases h
  | ok p => exact ⟨p, rfl⟩

/-- URL validation succeeding implies the extracted host is not blocked
(in particular it is nonempty). -/
theorem validate_url_ok_not_blocked {allowHttp : Bool} {url : String}
    {p : SplitResult} (hp : urlsplitE url = .ok p)
    (hok : validate_url allowHttp url = .ok ()) :
    is_blocked_host (pyLower ((hostnameOf p.netloc).getD "")) = false := by
  unfold validate_url at hok
  rw [hp] at hok
  dsimp only at hok
  by_cases h1 : BLOCKED_SCHEMES.contains (pyLower p.scheme) = true
  · rw [if_pos h1] at hok; cases hok
  · rw [if_neg h1] at hok
    by_cases h2 : ¬ (pyLower p.scheme = "http" ∨ pyLower p.scheme = "https")
    · rw [if_pos h2] at hok; cases hok
    · rw [if_neg h2] at hok
      by_cases h3 : pyLower p.scheme = "http" ∧ ¬ allowHttp = true
      · rw [if_pos h3] at hok; cases hok
      · rw [if_neg h3] at hok
        by_cases h4 : is_blocked_host (pyLower ((hostnameOf p.netloc).getD "")) = true
        · rw [if_pos h4] at hok; cases hok
        · exact Bool.not_eq_true _ |>.mp h4

/-- Validation failing makes fetch return the blocked error with an
empty request trace: the URL Validator runs first and no request is
issued. -/
theorem fetchRun_validate_error (env : Env) (url : String) (e : BlockReason)
    (h : validate_url env.allowHttp url = .error e) :
    fetchRun env url = (.error (.urlBlocked e), []) := by
  unfold fetchRun
  rw [h]

/-- With validation passed but the allowlist refusing, fetch returns the
allowlist error with an empty request trace: the Allowlist Matcher runs
second and no request is issued. -/
theorem fetchRun_allowlist_error (env : Env) (url : String)
    (hok : validate_url env.allowHttp url = .ok ())
    (hnall : is_allowed env.domains url = false) :
    fetchRun env url = (.error (.allowlistRejected url), []) := by
  unfold fetchRun
  rw [hok]
  dsimp only
  rw [if_pos (by simp [hnall])]

/-- With validation and allowlist passed but the resolved-address
classification failing, fetch returns that error with an empty request
trace: the Host/IP Classifier runs third and no request is issued. -/
theorem fetchRun_resolve_error (env : Env) (url : String) (p : SplitResult)
    (e : FetchErr) (hp : urlsplitE url = .ok p)
    (hok : validate_url env.allowHttp url = .ok ())
    (hall : is_allowed env.domains url = true)
    (hne : pyLower ((hostnameOf p.netloc).getD "") ≠ "")
    (hres : resolve_and_validate_host env (pyLower ((hostnameOf p.netloc).getD "")) =
      .error e) :
    fetchRun env url = (.error e, []) := by
  unfold fetchRun
  rw [hok]
  dsimp only
  rw [if_neg (by simp [hall]), hp]
  dsimp only
  rw [if_pos hne, hres]

/-- Once all three initial checks pass, the request trace of fetch is
exactly the transport trace. -/
theorem fetchRun_trace_after (env : Env) (url : String) (p : SplitResult)
    (hp : urlsplitE url = .ok p)
    (hok : validate_url env.allowHttp url = .ok ())
    (hall : is_allowed env.domains url = true)
    (hne : pyLower ((hostnameOf p.netloc).getD "") ≠ "")
    (hres : resolve_and_validate_host env (pyLower ((hostnameOf p.netloc).getD "")) =
      .ok ()) :
    (fetchRun env url).2 = (do_fetch env url).2 := by
  unfold fetchRun
  rw [hok]
  dsimp only
  rw [if_neg (by simp [hall]), hp]
  dsimp only
  rw [if_pos hne, hres]
  dsimp only
  repeat' split
  all_goals rfl

/-- C1 (amended): a request is issued only for the initial URL — after it
passed the URL Validator, then the Allowlist Matcher, then the Host/IP
Classifier on its resolved addresses, in that order — or for a redirect
target that passed the redirect validation (Host/IP Classifier on
resolved addresses, then Allowlist Matcher) before being followed.  The
URL Validator itself is not re-run on redirect targets; the
counterexample shows a fetched redirect target it would have rejected. -/
theorem C1_amended_validation_chain (env : Env) (url : String) :
    ((fetchRun env url).2 = [] ∨
      ((fetchRun env url).2.head? = some url ∧
        validate_url env.allowHttp url = .ok () ∧
        is_allowed env.domains url = true ∧
        (∃ p, urlsplitE url = .ok p ∧
          resolve_and_validate_host env
            (pyLower ((hostnameOf p.netloc).getD "")) = .ok ()) ∧
        ∀ u ∈ (fetchRun env url).2.tail, validate_redirect_target env u = .ok ())) ∧
      (∀ e, validate_url env.allowHttp url = .error e →
        fetchRun env url = (.error (.urlBlocked e), [])) ∧
      (validate_url env.allowHttp url = .ok () →
        is_allowed env.domains url = false →
        fetchRun env url = (.error (.allowlistRejected url), [])) := by
  refine ⟨?_, fun e he => fetchRun_validate_error env url e he,
    fun hok hnall => fetchRun_allowlist_error env url hok hnall⟩
  cases hval : validate_url env.allowHttp url with
  | error e =>
    rw [fetchRun_validate_error env url e hval]
    exact .inl rfl
  | ok v =>
    cases v
    by_cases hall : is_allowed env.domains url = true
    · obtain ⟨p, hp⟩ := validate_url_ok_urlsplit hval
      have hnb := validate_url_ok_not_blocked hp hval
      have hne : pyLower ((hostnameOf p.netloc).getD "") ≠ "" := by
        intro h0
        rw [h0] at hnb
        exact absurd hnb (by decide)
      cases hres : resolve_and_validate_host env
          (pyLower ((hostnameOf p.netloc).getD "")) with
      | error e =>
        rw [fetchRun_resolve_error env url p e hp hval hall hne hres]
        exact .inl rfl
      | ok v2 =>
        cases v2
        have htr := fetchRun_trace_after env url p hp hval hall hne hres
        rcases do_fetch_loop_structure env url (MAX_REDIRECTS + 1) url 0 []
          with h | ⟨rest, hr, hvalr⟩
        · exact .inl (htr.trans h)
        · refine .inr ⟨?_, rfl, hall, ⟨p, hp, hres⟩, ?_⟩
          · rw [htr]
            unfold do_fetch
            rw [hr]
            simp
          · intro u hu
            rw [htr] at hu
            unfold do_fetch at hu
            rw [hr] at hu
            simp only [List.nil_append, List.tail_cons] at hu
            exact hvalr u hu
    · have hnall : is_allowed env.domains url = false := by
        simpa using hall
      rw [fetchRun_allowlist_error env url hval hnall]
      exact .inl rfl

/-- Witness for C1 at a blocked-scheme URL: the validator error wins and
no request is issued. -/
theorem C1_witness :
    fetchRun envNone "file:///etc/passwd" =
      (.error (.urlBlocked (.blockedScheme "file")), []) :=
  (C1_amended_validation_chain envNone "file:///etc/passwd").2.1
    (.blockedScheme "file") (by decide)

/-- Counterexample for C1 as stated: with https-only policy, a redirect
from an allowlisted https page to the plain-http URL of the same host is
followed — the http URL is requested — although the URL Validator
rejects that URL; so not all three checks are re-applied to redirect
targets. -/
theorem C1_counterexample :
    "http://arxiv.org/b" ∈ (fetchRun envDowngrade "https://arxiv.org/a").2 ∧
      validate_url envDowngrade.allowHttp "http://arxiv.org/b" =
        .error .httpNotAllowed := by decide

/-! ## Claim C8: the PDF extraction path -/

/-- C8: an over-ceiling PDF fails with the extraction error before any
parse attempt (the result does not depend on the parser oracle); a parse
failure under the ceiling is an extraction error; a successful parse is
returned as (stripped) text, an empty result staying empty text at this
layer; and the top-level fetch caller is the one turning emptiness into
an error — fetch never returns empty text. -/
theorem C8_pdf_extraction :
    (∀ (env env2 : Env) (content : List Nat), MAX_PDF_BYTES < content.length →
      extract_text_pdf env content =
          .error (.extractionFailed "PDF exceeds maximum size") ∧
        extract_text_pdf env content = extract_text_pdf env2 content) ∧
    (∀ (env : Env) (content : List Nat), content.length ≤ MAX_PDF_BYTES →
      env.pdfParse content = none →
      extract_text_pdf env content =
        .error (.extractionFailed
          "PDF could not be read (corrupted, encrypted, or unsupported)")) ∧
    (∀ (env : Env) (content : List Nat) (t : String),
      content.length ≤ MAX_PDF_BYTES → env.pdfParse content = some t →
      extract_text_pdf env content = .ok (pyStrip t)) ∧
    (∀ (env : Env) (url t : String), (fetchRun env url).1 = .ok t → t ≠ "") := by
  refine ⟨?_, ?_, ?_, ?_⟩
  · intro env env2 content hlen
    unfold extract_text_pdf
    rw [if_pos hlen, if_pos hlen]
    exact ⟨rfl, rfl⟩
  · intro env content hlen hparse
    unfold extract_text_pdf
    rw [if_neg (by omega), hparse]
  · intro env content t hlen hparse
    unfold extract_text_pdf
    rw [if_neg (by omega), hparse]
  · intro env url t h
    unfold fetchRun at h
    repeat' split at h
    all_goals try simp_all
    all_goals (repeat' split at h)
    all_goals simp_all

/-- Witness for C8: an oversized PDF is rejected identically under two
different parser oracles; a parse failure and an empty parse behave as
stated; and a successful fetch returns nonempty text. -/
theorem C8_witness :
    (MAX_PDF_BYTES < (List.replicate (MAX_PDF_BYTES + 1) 0).length ∧
      (extract_text_pdf envHtml (List.replicate (MAX_PDF_BYTES + 1) 0) =
          .error (.extractionFailed "PDF exceeds maximum size") ∧
        extract_text_pdf envHtml (List.replicate (MAX_PDF_BYTES + 1) 0) =
          extract_text_pdf envPdf (List.replicate (MAX_PDF_BYTES + 1) 0))) ∧
    ((List.replicate 3 0).length ≤ MAX_PDF_BYTES ∧
      envHtml.pdfParse (List.replicate 3 0) = none ∧
      extract_text_pdf envHtml (List.replicate 3 0) =
        .error (.extractionFailed
          "PDF could not be read (corrupted, encrypted, or unsupported)")) ∧
    ((List.replicate 3 0).length ≤ MAX_PDF_BYTES ∧
      envPdf.pdfParse (List.replicate 3 0) = some "" ∧
      extract_text_pdf envPdf (List.replicate 3 0) = .ok (pyStrip "")) ∧
    ((fetchRun envHtml "https://arxiv.org/abs/1").1 = .ok "hi" ∧ "hi" ≠ "") := by
  have hbig : MAX_PDF_BYTES < (List.replicate (MAX_PDF_BYTES + 1) (0 : Nat)).length := by
    simp
  have hsmall : (List.replicate 3 (0 : Nat)).length ≤ MAX_PDF_BYTES := by
    norm_num [MAX_PDF_BYTES]
  have hok : (fetchRun envHtml "https://arxiv.org/abs/1").1 = .ok "hi" := by decide
  exact ⟨⟨hbig, C8_pdf_extraction.1 envHtml envPdf _ hbig⟩,
    ⟨hsmall, rfl, C8_pdf_extraction.2.1 envHtml _ hsmall rfl⟩,
    ⟨hsmall, rfl, C8_pdf_extraction.2.2.1 envPdf _ "" hsmall rfl⟩,
    ⟨hok, C8_pdf_extraction.2.2.2 envHtml "https://arxiv.org/abs/1" "hi" hok⟩⟩

end Steenbok
